import Mathlib

/-
  A shallow embedding of `toffy/fov_watcher.py` (creed-helper repository):
  the `RunStructure` run-structure tracker and the `FOV_EventHandler`
  filesystem-event orchestrator.

  Modelling conventions:
  * Python dicts become association lists (`List (key × value)`), preserving
    insertion order; `dict` deletion/update act on the (unique) matching key.
  * The filesystem is a pure record: `present` answers `os.path.exists`, and
    `sizeAt path k` is `os.path.getsize(path)` at the k-th poll of the
    zero-size wait loop in `check_run_condition`.  In the Python loop the
    cumulative wait reaches `timeout` after ten sleeps of `timeout / 10`
    (and immediately when `timeout = 0`), so the loop performs at most
    `pollLimit timeout + 1` size checks before the timeout branch fires.
  * Side effects are recorded in `WatcherState`: `fovCalls` collects the
    second argument of every `fov_func(run_folder, point_name)` invocation
    (in Python this is sometimes a `Path`, modelled as its string form),
    `runCalls` counts `run_func` invocations, `completeChecks` counts
    `check_complete` invocations, `timeoutLogs` counts the timeout log lines.
    The intermediate-callback/plotting bookkeeping of
    `_generate_callback_data` has no effect on any tracked state and is
    omitted; the `logf.write` text lines are represented only by counters.
  * Python's `int(...)` on the numeric fields of well-formed fov file names
    is modelled by `natFieldOf` (defaulting to 0 instead of raising on
    non-numeric text; every claim below evaluates it on well-formed names).
-/

namespace Toffy

/-- File-kind flags of one FOV: the Python dict `{"json": ..., "bin": ...}`. -/
abbrev Flags := List (String × Bool)

/-- The `fov_progress` dict: FOV name to file-kind flags. -/
abbrev Progress := List (String × Flags)

/-- Assignment `d[k] = v` for a key already in the dict (order preserved). -/
def alistSet (l : Flags) (k : String) (v : Bool) : Flags :=
  l.map (fun p => if p.1 == k then (p.1, v) else p)

/-- Python `self.fov_progress[fov_name][extension] = True`. -/
def progressSet (fp : Progress) (fov kind : String) : Progress :=
  fp.map (fun p => if p.1 == fov then (p.1, alistSet p.2 kind true) else p)

/-- Python `del self.fov_progress[fov_name]`. -/
def progressErase (fp : Progress) (fov : String) : Progress :=
  fp.filter (fun p => p.1 != fov)

/-- Dict insertion `d[k] = e` (replaces in place, else appends). -/
def addOrReplace (fp : Progress) (fov : String) (e : Flags) : Progress :=
  if fp.any (fun p => p.1 == fov) then
    fp.map (fun p => if p.1 == fov then (p.1, e) else p)
  else fp ++ [(fov, e)]

/-- Helper of `splitChar`: splits the remaining characters at every
occurrence of `sep`, `acc` holding the (reversed) current piece. -/
def splitCharAux (sep : Char) : List Char → List Char → List String
  | [], acc => [String.mk acc.reverse]
  | c :: rest, acc =>
    if c == sep then String.mk acc.reverse :: splitCharAux sep rest []
    else splitCharAux sep rest (c :: acc)

/-- Python `s.split(sep)` for a one-character separator (the only kind the
source uses).  Structurally recursive so concrete runs reduce in the
kernel. -/
def splitChar (s : String) (sep : Char) : List String :=
  splitCharAux sep s.data []

/-- Helper of `strToNat?`: decimal-digit accumulation. -/
def charsToNatAux : List Char → Nat → Option Nat
  | [], acc => some acc
  | c :: r, acc =>
    if c.isDigit then charsToNatAux r (acc * 10 + (c.toNat - '0'.toNat))
    else none

/-- Python `int(s)` on non-negative decimals, `none` on malformed input. -/
def strToNat? (s : String) : Option Nat :=
  match s.data with
  | [] => none
  | cs => charsToNatAux cs 0

/-- Python `filename[0] == "."`. -/
def headCharIsDot (s : String) : Bool :=
  match s.data with
  | [] => false
  | c :: _ => c == '.'

/-- Python `"/".join(parts)`. -/
def joinWithSlash : List String → String
  | [] => ""
  | [s] => s
  | s :: rest => s ++ "/" ++ joinWithSlash rest

/-- Python `Path(path).parts[-1]`. -/
def filenameOf (path : String) : String :=
  (splitChar path '/').getLastD ""

/-- Python `Path(path).parents[0]` (as a string; a bare filename gives "."). -/
def dirOf (path : String) : String :=
  let parts := splitChar path '/'
  if parts.length ≤ 1 then "." else joinWithSlash parts.dropLast

/-- Python `str(Path(d) / f)`; note `PosixPath(".") / f` stringifies to `f`. -/
def joinPath (d f : String) : String :=
  if d == "." then f else d ++ "/" ++ f

/-- Python `int(name.split("-")[i])` on well-formed fov names. -/
def natFieldOf (name : String) (i : Nat) : Nat :=
  (strToNat? ((splitChar name '-').getD i "")).getD 0

/-- The manifest fields of one entry of `run_metadata["fovs"]` that
`RunStructure.__init__` reads. -/
structure ManifestFov where
  runOrder : Option Int
  scanCount : Option Int
  standardTarget : Option String
deriving Repr, DecidableEq

/-- The tracker state of `class RunStructure`. -/
structure RunStructure where
  timeout : Nat
  fov_progress : Progress
  processed_fovs : List String
  moly_points : List String
deriving Repr, DecidableEq

/-- Python `[f"fov-{run_order}-scan-{s + 1}" for s in range(scan)]`. -/
def fovNamesOf (run_order scan : Int) : List String :=
  (List.range scan.toNat).map (fun s => s!"fov-{run_order}-scan-{s + 1}")

/-- One iteration of the manifest-parsing loop of `RunStructure.__init__`. -/
def insertManifestFov (rs : RunStructure) (fov : ManifestFov) :
    Except String RunStructure :=
  let run_order : Int := fov.runOrder.getD (-1)
  let scan : Int := fov.scanCount.getD (-1)
  if run_order * scan < 0 then
    Except.error "Could not locate keys"
  else
    let fov_names := fovNamesOf run_order scan
    let moly :=
      if fov.standardTarget.getD "" == "Molybdenum Foil" then
        rs.moly_points ++ fov_names
      else rs.moly_points
    let fp := fov_names.foldl
      (fun acc n => addOrReplace acc n [("json", false), ("bin", false)])
      rs.fov_progress
    Except.ok { rs with moly_points := moly, fov_progress := fp }

/-- Embeds `RunStructure.__init__`, with the manifest already parsed into a list of
entries (the JSON loading itself is an out-of-scope collaborator). -/
def RunStructure.init (fovs : List ManifestFov) (timeout : Nat) :
    Except String RunStructure :=
  fovs.foldlM insertManifestFov
    { timeout := timeout, fov_progress := [], processed_fovs := [],
      moly_points := [] }

/-- The observable filesystem behaviour at the paths the tracker touches. -/
structure FileSystem where
  present : String → Bool
  sizeAt : String → Nat → Nat

/-- Number of additional polls the zero-size wait loop performs before the
cumulative wait reaches `timeout` (ten sleeps of `timeout / 10`; none when
`timeout = 0`). -/
def pollLimit (timeout : Nat) : Nat :=
  if timeout == 0 then 0 else 10

/-- First poll index (starting at `k`, at most `remaining` further polls)
at which the file reports a non-zero size; `none` means the wait loop
exhausts its budget with the size still zero. -/
def firstNonzeroPoll (sizeAt : Nat → Nat) : Nat → Nat → Option Nat
  | k, 0 => if sizeAt k != 0 then some k else none
  | k, r + 1 =>
    if sizeAt k != 0 then some k else firstNonzeroPoll sizeAt (k + 1) r

/-- Embeds `RunStructure.check_run_condition`.  The `Except.error` outcome is the
`TimeoutError` raise; it carries the tracker state after
`del self.fov_progress[fov_name]`.  The `Except.ok` outcome carries the
updated tracker and the returned `(ready, fov_name)` pair. -/
def RunStructure.check_run_condition (rs : RunStructure) (fs : FileSystem)
    (path : String) : Except RunStructure (RunStructure × Bool × String) :=
  let filename := filenameOf path
  if headCharIsDot filename then Except.ok (rs, false, "")
  else if (splitChar filename '.').length != 2 then Except.ok (rs, false, "")
  else
    let fov_name := (splitChar filename '.').getD 0 ""
    let extension := (splitChar filename '.').getD 1 ""
    if !(fs.present path) then Except.ok (rs, false, "")
    else if rs.processed_fovs.contains fov_name then
      Except.ok (rs, false, fov_name)
    else if rs.moly_points.contains fov_name then
      Except.ok (rs, false, fov_name)
    else
      match rs.fov_progress.lookup fov_name with
      | some entry =>
        if (entry.lookup extension).isSome then
          match firstNonzeroPoll (fs.sizeAt path) 0 (pollLimit rs.timeout) with
          | none =>
            Except.error
              { rs with fov_progress := progressErase rs.fov_progress fov_name }
          | some _ =>
            let fp := progressSet rs.fov_progress fov_name extension
            if ((fp.lookup fov_name).getD []).all (fun q => q.2) then
              Except.ok ({ rs with fov_progress := fp }, true, fov_name)
            else
              Except.ok ({ rs with fov_progress := fp }, false, fov_name)
        else
          if entry.all (fun q => q.2) then Except.ok (rs, true, fov_name)
          else Except.ok (rs, false, fov_name)
      | none =>
        if extension == "bin" then Except.ok (rs, false, "")
        else Except.ok (rs, false, fov_name)

/-- Embeds `RunStructure.processed`. -/
def RunStructure.processed (rs : RunStructure) (fov_name : String) :
    RunStructure :=
  { rs with processed_fovs := rs.processed_fovs ++ [fov_name] }

/-- Embeds `RunStructure.check_fov_progress`.  Python iterates
`set(all_fovs).difference(moly_fovs)` in unspecified order; the model keeps
tracker order.  The claims below only concern key membership and values. -/
def RunStructure.check_fov_progress (rs : RunStructure) :
    List (String × Bool) :=
  (rs.fov_progress.filter (fun p => !(rs.moly_points.contains p.1))).map
    (fun p => (p.1, p.2.all (fun q => q.2)))

/-- The orchestrator state of `FOV_EventHandler` together with the record of
its observable callback/log effects. -/
structure WatcherState where
  rs : RunStructure
  lastFovNumProcessed : Nat
  fovCalls : List String
  runCalls : Nat
  completeChecks : Nat
  timeoutLogs : Nat
deriving Repr, DecidableEq

/-- Python `all(self.run_structure.check_fov_progress().values())`: the guard of
`check_complete` and also the polling condition of `start_watcher`. -/
def allFovsFinished (rs : RunStructure) : Bool :=
  rs.check_fov_progress.all (fun p => p.2)

/-- Embeds `FOV_EventHandler.check_complete`. -/
def check_complete (w : WatcherState) : WatcherState :=
  let w := { w with completeChecks := w.completeChecks + 1 }
  if allFovsFinished w.rs then { w with runCalls := w.runCalls + 1 } else w

/-- Embeds `FOV_EventHandler._generate_callback_data`: invoke `fov_func` on
`point_name`, mark it processed, then `check_complete`. -/
def generate_callback_data (w : WatcherState) (point_name : String) :
    WatcherState :=
  let w := { w with fovCalls := w.fovCalls ++ [point_name],
                    rs := w.rs.processed point_name }
  check_complete w

/-- Embeds `FOV_EventHandler._process_missed_fovs`. -/
def process_missed_fovs (w : WatcherState) (path : String) : WatcherState :=
  let name_ext := splitChar (filenameOf path) '.'
  if name_ext.length != 2 || name_ext.getD 1 "" != "bin" then w
  else
    let scan_num := natFieldOf (name_ext.getD 0 "") 3
    if scan_num > 1 then w
    else
      let fov_num := natFieldOf (name_ext.getD 0 "") 1
      if fov_num == w.lastFovNumProcessed + 1 then w
      else
        let bin_dir := dirOf path
        (List.range' (w.lastFovNumProcessed + 1)
            (fov_num - (w.lastFovNumProcessed + 1))).foldl
          (fun acc i =>
            generate_callback_data acc (joinPath bin_dir s!"fov-{i}-scan-1.bin"))
          w

/-- Embeds `FOV_EventHandler._check_last_fov`.  Note: the Python guard is
`if os.path.join(bin_dir / last_fov):`, the truthiness of a non-empty path
string; the model keeps that test verbatim (`!= ""`). -/
def check_last_fov (w : WatcherState) (path : String) : WatcherState :=
  let num_fovs := w.rs.fov_progress.length
  let last_fov := s!"fov-{num_fovs}-scan-1"
  let bin_dir := dirOf path
  if joinPath bin_dir last_fov != "" then
    let w := (List.range' (w.lastFovNumProcessed + 1)
        (num_fovs + 1 - (w.lastFovNumProcessed + 1))).foldl
      (fun acc i =>
        generate_callback_data acc (joinPath bin_dir s!"fov-{i}_scan_1.bin"))
      w
    check_complete w
  else w

/-- Embeds `FOV_EventHandler._run_callbacks` (the triggering path already
resolved from the event). -/
def run_callbacks (w : WatcherState) (fs : FileSystem) (file_trigger : String) :
    WatcherState :=
  let w := process_missed_fovs w file_trigger
  match w.rs.check_run_condition fs file_trigger with
  | Except.error rs1 =>
    let w := { w with rs := rs1, timeoutLogs := w.timeoutLogs + 1 }
    let w := check_complete w
    let point_number := natFieldOf (filenameOf file_trigger) 1
    { w with lastFovNumProcessed := point_number + 1 }
  | Except.ok (rs1, fov_ready, point_name) =>
    let w := { w with rs := rs1 }
    if fov_ready then
      let w := generate_callback_data w point_name
      { w with lastFovNumProcessed := natFieldOf point_name 1 + 1 }
    else w

/-- Embeds `FOV_EventHandler.on_created` (body under the lock; the lock serializes
event handling, so one call models one handled event). -/
def on_created (w : WatcherState) (fs : FileSystem) (src_path : String) :
    WatcherState :=
  let w := run_callbacks w fs src_path
  check_last_fov w src_path

/-- Embeds `FOV_EventHandler.on_moved` (body under the lock). -/
def on_moved (w : WatcherState) (fs : FileSystem) (dest_path : String) :
    WatcherState :=
  let w := run_callbacks w fs dest_path
  check_last_fov w dest_path

/-- A freshly constructed handler over a tracker (`last_fov_num_processed = 0`,
no effects recorded yet). -/
def freshState (rs : RunStructure) : WatcherState :=
  { rs := rs, lastFovNumProcessed := 0, fovCalls := [], runCalls := 0,
    completeChecks := 0, timeoutLogs := 0 }

/-- Unpack a successful construction (fallback is irrelevant: every use below
is on a manifest whose construction provably succeeds). -/
def extractOk (e : Except String RunStructure) : RunStructure :=
  match e with
  | Except.ok r => r
  | Except.error _ =>
    { timeout := 0, fov_progress := [], processed_fovs := [], moly_points := [] }

/-- Manifest of `n` FOVs, run orders `1..n`, one scan each, none moly. -/
def mkManifest (n : Nat) : List ManifestFov :=
  (List.range n).map (fun i =>
    { runOrder := some ((i : Int) + 1), scanCount := some 1,
      standardTarget := none })

/-! ### Concrete fixtures for the scenario evaluations -/

/-- Five-FOV run (one scan each, none moly). -/
def rs5 : RunStructure := extractOk (RunStructure.init (mkManifest 5) 10)

/-- Filesystem in which only FOV 5's files were ever written (non-zero). -/
def fs5 : FileSystem :=
  { present := fun p =>
      p == "run/fov-5-scan-1.bin" || p == "run/fov-5-scan-1.json",
    sizeAt := fun _ _ => 1 }

/-- Two-FOV run. -/
def rs2 : RunStructure := extractOk (RunStructure.init (mkManifest 2) 10)

/-- One-FOV run. -/
def rsOne : RunStructure := extractOk (RunStructure.init (mkManifest 1) 10)

/-- Three-FOV run. -/
def rs3 : RunStructure := extractOk (RunStructure.init (mkManifest 3) 10)

/-- Filesystem in which only FOV 1's bin file was written (non-zero). -/
def fs1 : FileSystem :=
  { present := fun p => p == "run/fov-1-scan-1.bin", sizeAt := fun _ _ => 1 }

/-- Filesystem in which FOV 1's bin and json files were written (non-zero). -/
def fsC4 : FileSystem :=
  { present := fun p =>
      p == "run/fov-1-scan-1.bin" || p == "run/fov-1-scan-1.json",
    sizeAt := fun _ _ => 1 }

/-- Handler state of the three-FOV run after FOV 1's bin and json creation
events were handled (FOV 1's per-FOV callbacks completed normally, so the
highest fully processed ordinal is 1). -/
def wC4 : WatcherState :=
  on_created (on_created (freshState rs3) fsC4 "run/fov-1-scan-1.bin") fsC4
    "run/fov-1-scan-1.json"

/-- Three-FOV manifest whose second FOV is a moly point. -/
def manifestM : List ManifestFov :=
  [{ runOrder := some 1, scanCount := some 1, standardTarget := none },
   { runOrder := some 2, scanCount := some 1,
     standardTarget := some "Molybdenum Foil" },
   { runOrder := some 3, scanCount := some 1, standardTarget := none }]

/-- Tracker of the run with a moly second FOV. -/
def rsM : RunStructure := extractOk (RunStructure.init manifestM 10)

/-- Filesystem in which only FOV 3's bin file was written (non-zero). -/
def fsM : FileSystem :=
  { present := fun p => p == "run/fov-3-scan-1.bin", sizeAt := fun _ _ => 1 }

/-- Filesystem in which the moly FOV 2's bin and json files were both written
with non-zero size. -/
def fsMoly : FileSystem :=
  { present := fun p =>
      p == "run/fov-2-scan-1.bin" || p == "run/fov-2-scan-1.json",
    sizeAt := fun _ _ => 1 }

/-- Filesystem in which FOV 1's json file exists but stays at size zero. -/
def fsZero : FileSystem :=
  { present := fun p => p == "run/fov-1-scan-1.json", sizeAt := fun _ _ => 0 }

/-! ### Association-list lemmas -/

theorem lookup_cons_pair {β : Type} (k : String) (p : String × β)
    (t : List (String × β)) :
    List.lookup k (p :: t) =
      if k = p.1 then some p.2 else List.lookup k t := by
  rcases p with ⟨a, e⟩
  by_cases h : k = a
  · simp [List.lookup, h]
  · simp [List.lookup, h, beq_false_of_ne h]

theorem lookup_check_fov_progress (moly : List String) (fp : Progress)
    (k : String) :
    ((fp.filter (fun p => !(moly.contains p.1))).map
        (fun p => (p.1, p.2.all (fun q => q.2)))).lookup k =
      if k ∈ moly then none
      else (fp.lookup k).map (fun e => e.all (fun q => q.2)) := by
  induction fp with
  | nil => simp [List.lookup]
  | cons p t ih =>
    simp only [List.elem_eq_mem] at ih ⊢
    rw [List.filter_cons]
    by_cases hm : p.1 ∈ moly
    · rw [if_neg (by simp [hm])]
      rw [ih]
      by_cases hkm : k ∈ moly
      · simp [hkm]
      · have hk : ¬ k = p.1 := fun h => hkm (h ▸ hm)
        rw [lookup_cons_pair, if_neg hk]
    · rw [if_pos (by simp [hm]), List.map_cons, lookup_cons_pair,
        lookup_cons_pair]
      by_cases hk : k = p.1
      · subst hk
        simp [hm]
      · simp [hk, ih]

/-! ### C8: completion criterion of `check_fov_progress` -/

/-- C8: `check_fov_progress()` returns a mapping whose key set is exactly the
non-moly FOV identifiers currently tracked in `fov_progress`, and maps each
such FOV to true iff both of its kind-flags (bin and json) are true; every
non-moly FOV with at least one flag false maps to false. -/
theorem C8_check_fov_progress_spec (rs : RunStructure) (k : String) :
    (k ∈ rs.moly_points → rs.check_fov_progress.lookup k = none) ∧
    (k ∉ rs.moly_points →
      rs.check_fov_progress.lookup k =
        (rs.fov_progress.lookup k).map (fun e => e.all (fun q => q.2))) ∧
    (∀ j b, k ∉ rs.moly_points →
      rs.fov_progress.lookup k = some [("json", j), ("bin", b)] →
      rs.check_fov_progress.lookup k = some (j && b)) := by
  refine ⟨fun h => ?_, fun h => ?_, fun j b h hl => ?_⟩
  · rw [RunStructure.check_fov_progress, lookup_check_fov_progress]
    simp [h]
  · rw [RunStructure.check_fov_progress, lookup_check_fov_progress]
    simp [h]
  · rw [RunStructure.check_fov_progress, lookup_check_fov_progress]
    simp [h, hl]

/-- Witness for C8 on a concrete tracker: FOV "fov-1-scan-1" of the two-FOV
run is not a moly point, and its reported value is the conjunction of its
flags. -/
theorem C8_check_fov_progress_spec_witness :
    (extractOk (RunStructure.init (mkManifest 2) 10)).check_fov_progress.lookup
        "fov-1-scan-1" =
      ((extractOk (RunStructure.init (mkManifest 2) 10)).fov_progress.lookup
          "fov-1-scan-1").map (fun e => e.all (fun q => q.2)) :=
  (C8_check_fov_progress_spec (extractOk (RunStructure.init (mkManifest 2) 10))
    "fov-1-scan-1").2.1 (by decide)

/-! ### C10: vacuous completion -/

/-- C10: whenever `fov_progress` is empty, `check_fov_progress()` returns the
empty mapping, so `check_complete` treats the run as complete and invokes the
per-run callback, and the watch loop's polling condition
(`allFovsFinished`, the condition `start_watcher` polls) is satisfied;
likewise when every tracked FOV is a moly point. -/
theorem C10_vacuous_completion (w : WatcherState) :
    (w.rs.fov_progress = [] →
      w.rs.check_fov_progress = [] ∧ allFovsFinished w.rs = true ∧
      check_complete w =
        { w with completeChecks := w.completeChecks + 1,
                 runCalls := w.runCalls + 1 }) ∧
    ((∀ p ∈ w.rs.fov_progress, p.1 ∈ w.rs.moly_points) →
      w.rs.check_fov_progress = [] ∧ allFovsFinished w.rs = true ∧
      check_complete w =
        { w with completeChecks := w.completeChecks + 1,
                 runCalls := w.runCalls + 1 }) := by
  have hstep : w.rs.check_fov_progress = [] →
      allFovsFinished w.rs = true ∧
      check_complete w =
        { w with completeChecks := w.completeChecks + 1,
                 runCalls := w.runCalls + 1 } := by
    intro hempty
    have hall : allFovsFinished w.rs = true := by
      rw [allFovsFinished, hempty]; rfl
    refine ⟨hall, ?_⟩
    rw [check_complete]
    simp only [hall, if_true]
  constructor
  · intro h
    have hempty : w.rs.check_fov_progress = [] := by
      rw [RunStructure.check_fov_progress, h]; rfl
    exact ⟨hempty, hstep hempty⟩
  · intro h
    have hempty : w.rs.check_fov_progress = [] := by
      rw [RunStructure.check_fov_progress]
      have : w.rs.fov_progress.filter
          (fun p => !(w.rs.moly_points.contains p.1)) = [] := by
        rw [List.filter_eq_nil_iff]
        intro p hp
        simp [h p hp]
      rw [this]; rfl
    exact ⟨hempty, hstep hempty⟩

/-- Witness for C10: the zero-FOV manifest yields an empty tracker, whose
run is immediately complete and whose `check_complete` fires the per-run
callback. -/
theorem C10_vacuous_completion_witness :
    (freshState (extractOk (RunStructure.init ([] : List ManifestFov) 10))
        ).rs.check_fov_progress = [] ∧
    allFovsFinished
      (freshState (extractOk (RunStructure.init ([] : List ManifestFov) 10))).rs
        = true ∧
    check_complete
        (freshState (extractOk (RunStructure.init ([] : List ManifestFov) 10))) =
      { freshState (extractOk (RunStructure.init ([] : List ManifestFov) 10)) with
          completeChecks := 1, runCalls := 1 } :=
  (C10_vacuous_completion
    (freshState (extractOk (RunStructure.init ([] : List ManifestFov) 10)))).1
    (by decide)

/-! ### C5: zero-size timeout -/

theorem firstNonzeroPoll_of_zero (sizeAt : Nat → Nat)
    (h : ∀ n, sizeAt n = 0) (k r : Nat) :
    firstNonzeroPoll sizeAt k r = none := by
  induction r generalizing k with
  | zero => simp [firstNonzeroPoll, h]
  | succ r ih => simp [firstNonzeroPoll, h, ih]

theorem lookup_progressErase (fp : Progress) (n k : String) :
    (progressErase fp n).lookup k =
      if k = n then none else fp.lookup k := by
  induction fp with
  | nil => simp [progressErase, List.lookup]
  | cons p t ih =>
    rw [progressErase, List.filter_cons]
    by_cases hpn : p.1 = n
    · rw [if_neg (by simp [hpn])]
      rw [progressErase] at ih
      rw [ih]
      by_cases hk : k = n
      · simp [hk]
      · have hk2 : ¬ k = p.1 := fun h2 => hk (hpn ▸ h2)
        rw [if_neg hk, if_neg hk, lookup_cons_pair, if_neg hk2]
    · rw [if_pos (by simp [hpn])]
      rw [lookup_cons_pair, lookup_cons_pair]
      by_cases hk : k = p.1
      · rw [if_pos hk, if_pos hk, if_neg (fun h2 => hpn (hk.symm.trans h2))]
      · rw [if_neg hk, if_neg hk]
        rw [progressErase] at ih
        rw [ih]

/-- The tracker state `check_run_condition` leaves behind when the zero-size
wait on `fov_name`'s file times out. -/
def timeoutState (rs : RunStructure) (fov_name : String) : RunStructure :=
  { rs with fov_progress := progressErase rs.fov_progress fov_name }

theorem check_run_condition_timeout (rs : RunStructure) (fs : FileSystem)
    (path fov_name ext : String) (entry : Flags)
    (h1 : headCharIsDot (filenameOf path) = false)
    (hsplit : splitChar (filenameOf path) '.' = [fov_name, ext])
    (hpres : fs.present path = true)
    (hproc : fov_name ∉ rs.processed_fovs)
    (hmoly : fov_name ∉ rs.moly_points)
    (hlook : rs.fov_progress.lookup fov_name = some entry)
    (hext : (entry.lookup ext).isSome = true)
    (hzero : ∀ n, fs.sizeAt path n = 0) :
    rs.check_run_condition fs path =
      Except.error (timeoutState rs fov_name) := by
  have hz : ∀ k r, firstNonzeroPoll (fs.sizeAt path) k r = none :=
    firstNonzeroPoll_of_zero _ hzero
  have e0 : (([fov_name, ext] : List String).getD 0 "") = fov_name := rfl
  have e1 : (([fov_name, ext] : List String).getD 1 "") = ext := rfl
  simp only [RunStructure.check_run_condition, hsplit, h1, hpres, e0, e1]
  rw [hlook]
  simp [hproc, hmoly, hext, hz, timeoutState]

theorem process_missed_fovs_skip (w : WatcherState) (path fov_name ext : String)
    (hsplit : splitChar (filenameOf path) '.' = [fov_name, ext])
    (h : ext ≠ "bin" ∨ 1 < natFieldOf fov_name 3 ∨
      natFieldOf fov_name 1 = w.lastFovNumProcessed + 1) :
    process_missed_fovs w path = w := by
  simp only [process_missed_fovs, hsplit]
  split
  · rfl
  · rename_i h1
    split
    · rfl
    · rename_i h2
      split
      · rfl
      · rename_i h3
        exfalso
        rcases h with hext | hscan | hfov
        · exact h1 (by simp [List.getD, hext])
        · exact h2 (by simpa [List.getD] using hscan)
        · exact h3 (by simp [List.getD, hfov])

/-- The full observable outcome the spec describes for a zero-size timeout
on the tracked FOV `fov_name`'s file at `path`:
`check_run_condition` deletes the FOV's tracker entry and raises the
timeout error; the FOV disappears from `check_fov_progress`'s keys while
every other FOV's completion status is unchanged; the event handling logs
the failure, still runs the whole-run completion check, advances the
marker past this ordinal, and invokes no per-FOV callback. -/
def TimeoutOutcome (w : WatcherState) (fs : FileSystem)
    (path fov_name : String) : Prop :=
  w.rs.check_run_condition fs path =
    Except.error (timeoutState w.rs fov_name) ∧
  (timeoutState w.rs fov_name).check_fov_progress.lookup fov_name = none ∧
  (∀ g, g ≠ fov_name →
    (timeoutState w.rs fov_name).check_fov_progress.lookup g =
      w.rs.check_fov_progress.lookup g) ∧
  run_callbacks w fs path =
    { w with rs := timeoutState w.rs fov_name,
             timeoutLogs := w.timeoutLogs + 1,
             completeChecks := w.completeChecks + 1,
             runCalls :=
               if allFovsFinished (timeoutState w.rs fov_name) then
                 w.runCalls + 1
               else w.runCalls,
             lastFovNumProcessed := natFieldOf (filenameOf path) 1 + 1 } ∧
  (run_callbacks w fs path).fovCalls = w.fovCalls

/-- C5: if `check_run_condition` is called on a tracked FOV file whose size
stays zero for the full timeout budget, it deletes that FOV's entry from
`fov_progress` and raises the timeout error; afterwards the FOV is absent
from `check_fov_progress()`'s key set, every other FOV's completion status
is unchanged, and the event handler logs the failure, still invokes the
run-completion check, and invokes no per-FOV callback during the handling
(the hypothesis `hnogap` states that the backfill precondition does not hold
for this path, e.g. a json file, a later scan, or no ordinal gap). -/
theorem C5_timeout_behaviour (w : WatcherState) (fs : FileSystem)
    (path fov_name ext : String) (entry : Flags)
    (h1 : headCharIsDot (filenameOf path) = false)
    (hsplit : splitChar (filenameOf path) '.' = [fov_name, ext])
    (hpres : fs.present path = true)
    (hproc : fov_name ∉ w.rs.processed_fovs)
    (hmoly : fov_name ∉ w.rs.moly_points)
    (hlook : w.rs.fov_progress.lookup fov_name = some entry)
    (hext : (entry.lookup ext).isSome = true)
    (hzero : ∀ n, fs.sizeAt path n = 0)
    (hnogap : ext ≠ "bin" ∨ 1 < natFieldOf fov_name 3 ∨
      natFieldOf fov_name 1 = w.lastFovNumProcessed + 1) :
    TimeoutOutcome w fs path fov_name := by
  have hcheck := check_run_condition_timeout w.rs fs path fov_name ext entry
    h1 hsplit hpres hproc hmoly hlook hext hzero
  have hpm := process_missed_fovs_skip w path fov_name ext hsplit hnogap
  have hrun : run_callbacks w fs path =
      { w with rs := timeoutState w.rs fov_name,
               timeoutLogs := w.timeoutLogs + 1,
               completeChecks := w.completeChecks + 1,
               runCalls :=
                 if allFovsFinished (timeoutState w.rs fov_name) then
                   w.runCalls + 1
                 else w.runCalls,
               lastFovNumProcessed := natFieldOf (filenameOf path) 1 + 1 } := by
    rw [run_callbacks, hpm, hcheck]
    simp only [check_complete]
    split
    · rfl
    · rfl
  refine ⟨hcheck, ?_, ?_, hrun, ?_⟩
  · rw [RunStructure.check_fov_progress, lookup_check_fov_progress]
    by_cases hm : fov_name ∈ (timeoutState w.rs fov_name).moly_points
    · simp [hm]
    · simp only [hm, if_neg hm]
      rw [timeoutState, lookup_progressErase]
      simp
  · intro g hg
    rw [RunStructure.check_fov_progress, lookup_check_fov_progress,
      RunStructure.check_fov_progress, lookup_check_fov_progress]
    by_cases hm : g ∈ w.rs.moly_points
    · simp [timeoutState, hm]
    · have hm2 : g ∉ (timeoutState w.rs fov_name).moly_points := hm
      simp only [if_neg hm, if_neg hm2]
      rw [timeoutState, lookup_progressErase, if_neg hg]
  · rw [hrun]

/-- Witness for C5: in the two-FOV run, FOV 1's json file exists but stays
at size zero, so its handling times out, drops FOV 1 from tracking, logs,
checks completion, and fires no per-FOV callback. -/
theorem C5_timeout_behaviour_witness :
    TimeoutOutcome (freshState rs2) fsZero "run/fov-1-scan-1.json"
      "fov-1-scan-1" :=
  C5_timeout_behaviour (freshState rs2) fsZero "run/fov-1-scan-1.json"
    "fov-1-scan-1" "json" [("json", false), ("bin", false)]
    (by decide) (by decide) (by decide) (by decide) (by decide) (by decide)
    (by decide) (fun n => rfl) (Or.inl (by decide))

/-! ### C9: shape and monotonicity invariant of `fov_progress` -/

/-- Every tracked entry holds exactly the two file-kind flags, json then
bin. -/
def GoodShape (fp : Progress) : Prop :=
  ∀ p ∈ fp, ∃ j b, p.2 = [("json", j), ("bin", b)]

/-- `e'` has the same flag keys as `e` and no flag moved from true to
false. -/
def flagsMono (e e' : Flags) : Prop :=
  e'.map Prod.fst = e.map Prod.fst ∧
  ∀ kind b b', e.lookup kind = some b → e'.lookup kind = some b' →
    b = true → b' = true

/-- One tracker operation on `fov_progress`: no key is added, and every
surviving entry's flags only stay or flip false-to-true (an entry may also
disappear, the timeout deletion). -/
def progressStep (old new : Progress) : Prop :=
  (∀ k, old.lookup k = none → new.lookup k = none) ∧
  (∀ k e', new.lookup k = some e' →
    ∃ e, old.lookup k = some e ∧ flagsMono e e')

/-- The tracker state an outcome of `check_run_condition` carries (both the
normal return and the timeout raise mutate `self`). -/
def resState (r : Except RunStructure (RunStructure × Bool × String)) :
    RunStructure :=
  match r with
  | Except.error rs1 => rs1
  | Except.ok (rs1, _, _) => rs1

theorem lookup_alistSet (e : Flags) (x : String) (v : Bool) (k : String) :
    (alistSet e x v).lookup k =
      if k = x then (e.lookup k).map (fun _ => v) else e.lookup k := by
  induction e with
  | nil => simp [alistSet, List.lookup]
  | cons p t ih =>
    simp only [alistSet, List.map_cons] at *
    by_cases hpx : p.1 = x
    · rw [if_pos (by simp [hpx] : (p.1 == x) = true)]
      rw [lookup_cons_pair, lookup_cons_pair]
      by_cases hk : k = p.1
      · rw [if_pos hk, if_pos hk, if_pos (hk.trans hpx)]
        rfl
      · rw [if_neg hk, if_neg hk, ih]
    · rw [if_neg (by simp [hpx] : ¬ (p.1 == x) = true)]
      rw [lookup_cons_pair, lookup_cons_pair]
      by_cases hk : k = p.1
      · rw [if_pos hk, if_pos hk,
          if_neg (fun h2 => hpx (hk.symm.trans h2))]
      · rw [if_neg hk, if_neg hk, ih]

theorem lookup_progressSet (fp : Progress) (n x k : String) :
    (progressSet fp n x).lookup k =
      if k = n then (fp.lookup k).map (fun e => alistSet e x true)
      else fp.lookup k := by
  induction fp with
  | nil => simp [progressSet, List.lookup]
  | cons p t ih =>
    simp only [progressSet, List.map_cons] at *
    by_cases hpn : p.1 = n
    · rw [if_pos (by simp [hpn] : (p.1 == n) = true)]
      rw [lookup_cons_pair, lookup_cons_pair]
      by_cases hk : k = p.1
      · rw [if_pos hk, if_pos hk, if_pos (hk.trans hpn)]
        rfl
      · rw [if_neg hk, if_neg hk, ih]
    · rw [if_neg (by simp [hpn] : ¬ (p.1 == n) = true)]
      rw [lookup_cons_pair, lookup_cons_pair]
      by_cases hk : k = p.1
      · rw [if_pos hk, if_pos hk,
          if_neg (fun h2 => hpn (hk.symm.trans h2))]
      · rw [if_neg hk, if_neg hk, ih]

theorem alistSet_keys (e : Flags) (x : String) (v : Bool) :
    (alistSet e x v).map Prod.fst = e.map Prod.fst := by
  induction e with
  | nil => rfl
  | cons p t ih =>
    simp only [alistSet, List.map_cons] at *
    have hhead : (if (p.1 == x) = true then (p.1, v) else p).1 = p.1 := by
      split <;> rfl
    rw [hhead, ih]

theorem flagsMono_refl (e : Flags) : flagsMono e e := by
  refine ⟨rfl, fun kind b b' hb hb' hbt => ?_⟩
  rw [hb] at hb'
  cases hb'
  exact hbt

theorem flagsMono_alistSet (e : Flags) (x : String) :
    flagsMono e (alistSet e x true) := by
  refine ⟨alistSet_keys e x true, fun kind b b' hb hb' hbt => ?_⟩
  rw [lookup_alistSet] at hb'
  split at hb'
  · rw [hb] at hb'
    cases hb'
    rfl
  · rw [hb] at hb'
    cases hb'
    exact hbt

theorem progressStep_refl (fp : Progress) : progressStep fp fp :=
  ⟨fun _ h => h, fun _ e' h => ⟨e', h, flagsMono_refl e'⟩⟩

theorem progressStep_erase (fp : Progress) (n : String) :
    progressStep fp (progressErase fp n) := by
  constructor
  · intro k h
    rw [lookup_progressErase]
    split
    · rfl
    · exact h
  · intro k e' h
    rw [lookup_progressErase] at h
    split at h
    · cases h
    · exact ⟨e', h, flagsMono_refl e'⟩

theorem progressStep_set (fp : Progress) (n x : String) :
    progressStep fp (progressSet fp n x) := by
  constructor
  · intro k h
    rw [lookup_progressSet]
    split
    · rw [h]
      rfl
    · exact h
  · intro k e' h
    rw [lookup_progressSet] at h
    split at h
    · cases he : fp.lookup k with
      | none =>
        rw [he] at h
        cases h
      | some e =>
        rw [he, Option.map_some'] at h
        cases h
        exact ⟨e, rfl, flagsMono_alistSet e x⟩
    · exact ⟨e', h, flagsMono_refl e'⟩

theorem goodShape_progressErase (fp : Progress) (n : String)
    (h : GoodShape fp) : GoodShape (progressErase fp n) :=
  fun p hp => h p (List.mem_of_mem_filter hp)

theorem goodShape_progressSet (fp : Progress) (n x : String)
    (h : GoodShape fp) : GoodShape (progressSet fp n x) := by
  intro p hp
  rw [progressSet] at hp
  obtain ⟨q, hq, hpq⟩ := List.mem_map.mp hp
  obtain ⟨j, b, hjb⟩ := h q hq
  by_cases hqn : (q.1 == n) = true
  · rw [if_pos hqn] at hpq
    refine ⟨if ("json" : String) == x then true else j,
            if ("bin" : String) == x then true else b, ?_⟩
    rw [← hpq]
    show alistSet q.2 x true = _
    rw [hjb, alistSet]
    simp only [List.map_cons, List.map_nil]
    congr 1
    · split <;> rfl
    · congr 1
      split <;> rfl
  · rw [if_neg hqn] at hpq
    exact ⟨j, b, hpq ▸ hjb⟩

theorem goodShape_addOrReplace (fp : Progress) (n : String)
    (h : GoodShape fp) :
    GoodShape (addOrReplace fp n [("json", false), ("bin", false)]) := by
  intro p hp
  rw [addOrReplace] at hp
  split at hp
  · obtain ⟨q, hq, hpq⟩ := List.mem_map.mp hp
    by_cases hqn : (q.1 == n) = true
    · rw [if_pos hqn] at hpq
      exact ⟨false, false, by rw [← hpq]⟩
    · rw [if_neg hqn] at hpq
      obtain ⟨j, b, hjb⟩ := h q hq
      exact ⟨j, b, hpq ▸ hjb⟩
  · rcases List.mem_append.mp hp with hl | hr
    · exact h p hl
    · have : p = (n, [("json", false), ("bin", false)]) := by
        simpa using hr
      exact ⟨false, false, by rw [this]⟩

theorem goodShape_foldl_default :
    ∀ (names : List String) (fp : Progress), GoodShape fp →
      GoodShape (names.foldl
        (fun acc nm => addOrReplace acc nm [("json", false), ("bin", false)])
        fp)
  | [], _, h => h
  | nm :: rest, fp, h =>
    goodShape_foldl_default rest _ (goodShape_addOrReplace fp nm h)

theorem goodShape_insertManifestFov (rs : RunStructure) (fov : ManifestFov)
    (rs' : RunStructure) (hok : insertManifestFov rs fov = Except.ok rs')
    (h : GoodShape rs.fov_progress) : GoodShape rs'.fov_progress := by
  simp only [insertManifestFov] at hok
  split at hok
  · cases hok
  · cases hok
    exact goodShape_foldl_default _ _ h

theorem goodShape_foldlM_init :
    ∀ (fovs : List ManifestFov) (rs : RunStructure),
      GoodShape rs.fov_progress → ∀ rs' : RunStructure,
      List.foldlM insertManifestFov rs fovs = Except.ok rs' →
      GoodShape rs'.fov_progress := by
  intro fovs
  induction fovs with
  | nil =>
    intro rs h rs' hfold
    have hfold2 : (Except.ok rs : Except String RunStructure) =
        Except.ok rs' := hfold
    cases hfold2
    exact h
  | cons f rest ih =>
    intro rs h rs' hfold
    simp only [List.foldlM_cons] at hfold
    cases hins : insertManifestFov rs f with
    | error e =>
      rw [hins] at hfold
      have hfold2 : (Except.error e : Except String RunStructure) =
          Except.ok rs' := hfold
      cases hfold2
    | ok r1 =>
      rw [hins] at hfold
      have hfold2 : List.foldlM insertManifestFov r1 rest =
          Except.ok rs' := hfold
      exact ih r1 (goodShape_insertManifestFov rs f r1 hins h) rs' hfold2

/-- C9: after construction every `fov_progress` entry holds exactly the two
file-kind flags json and bin; and every tracker operation either leaves an
entry's flags unchanged, flips a flag false-to-true, or deletes the whole
entry — never flipping true-to-false and never adding a key
(`check_run_condition` in both its normal and timeout outcomes;
`processed` never touches `fov_progress`; `check_fov_progress` is pure). -/
theorem C9_progress_invariant :
    (∀ (fovs : List ManifestFov) (t : Nat) (rs0 : RunStructure),
      RunStructure.init fovs t = Except.ok rs0 →
      GoodShape rs0.fov_progress) ∧
    (∀ (rs : RunStructure) (fs : FileSystem) (path : String),
      progressStep rs.fov_progress
        (resState (rs.check_run_condition fs path)).fov_progress) ∧
    (∀ (rs : RunStructure) (fs : FileSystem) (path : String),
      GoodShape rs.fov_progress →
      GoodShape (resState (rs.check_run_condition fs path)).fov_progress) ∧
    (∀ (rs : RunStructure) (n : String),
      (rs.processed n).fov_progress = rs.fov_progress) := by
  refine ⟨?_, ?_, ?_, fun rs n => rfl⟩
  · intro fovs t rs0 hok
    exact goodShape_foldlM_init fovs _
      (fun p hp => absurd hp (List.not_mem_nil p)) rs0 hok
  · intro rs fs path
    simp only [RunStructure.check_run_condition]
    repeat' split
    all_goals
      first
        | exact progressStep_refl _
        | exact progressStep_erase _ _
        | exact progressStep_set _ _ _
  · intro rs fs path h
    simp only [RunStructure.check_run_condition]
    repeat' split
    all_goals
      first
        | exact h
        | exact goodShape_progressErase _ _ h
        | exact goodShape_progressSet _ _ _ h

/-- Witness for C9: the five-FOV tracker built from its manifest satisfies
the shape invariant. -/
theorem C9_progress_invariant_witness : GoodShape rs5.fov_progress :=
  C9_progress_invariant.1 (mkManifest 5) 10 rs5 (by rfl)

/-! ### C1: backfill scenario (P5) -/

/-- C1: evaluating the handler on the P5 scenario (five-FOV manifest, only
FOV 5's bin and json delivered as creation events).  The claim demands
exactly one per-FOV callback invocation per FOV with the FOV identifier as
argument; the code instead produces ten invocations: FOVs 1-4 twice each
(once from the backfill pass with a `.bin` path argument, once from the
always-firing forced last-FOV pass with a malformed `fov-N_scan_1.bin` path)
and FOV 5 twice, and the per-run callback never fires because backfill never
updates `fov_progress`. -/
theorem C1_code_eval :
    (on_created (on_created (freshState rs5) fs5 "run/fov-5-scan-1.bin") fs5
        "run/fov-5-scan-1.json").fovCalls =
      ["run/fov-1-scan-1.bin", "run/fov-2-scan-1.bin", "run/fov-3-scan-1.bin",
       "run/fov-4-scan-1.bin", "run/fov-1_scan_1.bin", "run/fov-2_scan_1.bin",
       "run/fov-3_scan_1.bin", "run/fov-4_scan_1.bin", "run/fov-5_scan_1.bin",
       "fov-5-scan-1"] ∧
    (on_created (on_created (freshState rs5) fs5 "run/fov-5-scan-1.bin") fs5
        "run/fov-5-scan-1.json").runCalls = 0 := by
  constructor <;> rfl

/-! ### C2: last-FOV check fires on every event -/

/-- C2: the claim says the forced last-FOV dispatch happens iff the
triggering path is the run's final FOV.  In the two-FOV run, the event for
FOV 1's bin file (ordinal 1 of 2, not final) nevertheless force-dispatches
the per-FOV sequence for ordinals 1 and 2, because the code's guard is the
truthiness of `os.path.join(bin_dir / last_fov)`, a non-empty string. -/
theorem C2_code_eval :
    natFieldOf (filenameOf "run/fov-1-scan-1.bin") 1 = 1 ∧
    rs2.fov_progress.length = 2 ∧
    (on_created (freshState rs2) fs1 "run/fov-1-scan-1.bin").fovCalls =
      ["run/fov-1_scan_1.bin", "run/fov-2_scan_1.bin"] := by
  refine ⟨rfl, rfl, rfl⟩

/-! ### C3: duplicate events (P7) -/

/-- C3: handling the identical creation event for FOV 1's bin file twice in
the one-FOV run invokes the per-FOV callback for FOV 1 once per handling:
the forced last-FOV pass re-dispatches it because neither `processed_fovs`
(which received only path strings) nor the unchanged
`last_fov_num_processed` guards it. -/
theorem C3_code_eval :
    (on_created (on_created (freshState rsOne) fs1 "run/fov-1-scan-1.bin")
        fs1 "run/fov-1-scan-1.bin").fovCalls =
      ["run/fov-1_scan_1.bin", "run/fov-1_scan_1.bin"] := by
  rfl

/-! ### C4: backfill gap condition off by one -/

/-- C4: in the three-FOV run after FOV 1 completed normally (so the highest
ordinal with a completed creation callback is 1, witnessed by
`processed_fovs`, while the internal counter holds 2), a scan-1 bin event
for ordinal 3 = marker + 2 triggers no backfill at all, and an event for
ordinal 4 backfills only ordinal 3, never the skipped ordinal 2. -/
theorem C4_code_eval :
    wC4.lastFovNumProcessed = 2 ∧
    wC4.rs.processed_fovs.contains "fov-1-scan-1" = true ∧
    wC4.rs.processed_fovs.contains "fov-2-scan-1" = false ∧
    process_missed_fovs wC4 "run/fov-3-scan-1.bin" = wC4 ∧
    (process_missed_fovs wC4 "run/fov-4-scan-1.bin").fovCalls =
      wC4.fovCalls ++ ["run/fov-3-scan-1.bin"] := by
  refine ⟨rfl, rfl, rfl, rfl, rfl⟩

/-! ### C6: moly exclusion (P3) -/

/-- C6 counterexample: in the run whose second FOV is a moly point, handling
the creation event for FOV 3's bin file dispatches per-FOV callback
invocations on behalf of the moly FOV 2 (its bin-file path from the backfill
pass and its forced-pass path), even though FOV 2 is a moly point — refuting
"moly FOVs never trigger per-FOV callback dispatch". -/
theorem C6_counterexample :
    rsM.moly_points = ["fov-2-scan-1"] ∧
    (on_created (freshState rsM) fsM "run/fov-3-scan-1.bin").fovCalls =
      ["run/fov-1-scan-1.bin", "run/fov-2-scan-1.bin", "run/fov-1_scan_1.bin",
       "run/fov-2_scan_1.bin", "run/fov-3_scan_1.bin"] := by
  refine ⟨rfl, rfl⟩

/-- C6 amended: moly identifiers never appear in `check_fov_progress()`'s
key set, and the readiness-driven dispatch path never fires for a moly FOV:
`check_run_condition` reports not-ready (leaving the tracker unchanged) for
every path whose FOV name is a moly point, so `_run_callbacks` never passes
a moly identifier to the per-FOV callback.  (The backfill and forced
last-FOV passes, however, do dispatch callbacks for moly ordinals with
file-path arguments — see the counterexample.) -/
theorem C6_amended (rs : RunStructure) (fs : FileSystem) (path k : String) :
    (k ∈ rs.moly_points → rs.check_fov_progress.lookup k = none) ∧
    (((splitChar (filenameOf path) '.').getD 0 "") ∈ rs.moly_points →
      ∃ r, rs.check_run_condition fs path = Except.ok (rs, false, r)) := by
  constructor
  · intro h
    rw [RunStructure.check_fov_progress, lookup_check_fov_progress]
    simp [h]
  · intro h
    simp only [RunStructure.check_run_condition]
    split
    · exact ⟨"", rfl⟩
    split
    · exact ⟨"", rfl⟩
    split
    · exact ⟨"", rfl⟩
    split
    · exact ⟨_, rfl⟩
    split
    · exact ⟨_, rfl⟩
    · simp_all

/-- Witness for C6's amended statement: the moly FOV 2, with both of its
files present and non-zero on disk, is absent from `check_fov_progress`'s
keys and reported not-ready by `check_run_condition`. -/
theorem C6_amended_witness :
    rsM.check_fov_progress.lookup "fov-2-scan-1" = none ∧
    (∃ r, rsM.check_run_condition fsMoly "run/fov-2-scan-1.bin" =
      Except.ok (rsM, false, r)) :=
  ⟨(C6_amended rsM fsMoly "run/fov-2-scan-1.bin" "fov-2-scan-1").1 (by decide),
   (C6_amended rsM fsMoly "run/fov-2-scan-1.bin" "fov-2-scan-1").2 (by decide)⟩

/-! ### C7: manifest validation at construction -/

/-- C7 counterexample: a manifest entry missing *both* `runOrder` and
`scanCount` does not abort construction: the defaults multiply to
`(-1) * (-1) = 1`, the guard `run_order * scan < 0` passes, and the tracker
is built (with no FOV entries) — refuting "an entry missing ... both causes
construction to abort". -/
theorem C7_counterexample :
    RunStructure.init
        [{ runOrder := none, scanCount := none, standardTarget := none }] 10 =
      Except.ok { timeout := 10, fov_progress := [], processed_fovs := [],
                  moly_points := [] } := by
  rfl

/-- C7 amended: an entry missing exactly one of the two keys — no `runOrder`
while `scanCount` is a positive integer, or no `scanCount` while `runOrder`
is positive — makes construction abort with the structural error; an entry
missing both keys is silently accepted (defaults multiply to a non-negative
product) and contributes no FOVs. -/
theorem C7_amended (t : Nat) (e : ManifestFov) (rest : List ManifestFov)
    (h : (e.runOrder = none ∧ ∃ c, e.scanCount = some c ∧ 0 < c) ∨
         (e.scanCount = none ∧ ∃ ro, e.runOrder = some ro ∧ 0 < ro)) :
    RunStructure.init (e :: rest) t =
      Except.error "Could not locate keys" := by
  have herr : ∀ rs : RunStructure,
      insertManifestFov rs e = Except.error "Could not locate keys" := by
    intro rs
    have hneg : (e.runOrder.getD (-1)) * (e.scanCount.getD (-1)) < 0 := by
      rcases h with ⟨h1, c, h2, hc⟩ | ⟨h1, ro, h2, hro⟩
      · rw [h1, h2]
        simp only [Option.getD_none, Option.getD_some]
        rw [neg_one_mul]
        omega
      · rw [h1, h2]
        simp only [Option.getD_none, Option.getD_some]
        rw [mul_neg_one]
        omega
    simp [insertManifestFov, hneg]
  simp only [RunStructure.init, List.foldlM, herr]
  rfl

/-- Witness for C7's amended statement: the single-entry manifest lacking
only `runOrder` aborts construction. -/
theorem C7_amended_witness :
    RunStructure.init
        [{ runOrder := none, scanCount := some 1, standardTarget := none }] 5 =
      Except.error "Could not locate keys" :=
  C7_amended 5
    { runOrder := none, scanCount := some 1, standardTarget := none } []
    (Or.inl ⟨rfl, 1, rfl, by decide⟩)

end Toffy
